import Mathlib

/-!
Shallow embedding of the FHEVM client SDK core (instance management,
decryption session protocol, session-state façade and the React hook
gating layer) from the repository sources:

  * `packages/fhevm-sdk/src/core/decrypt.ts` — `decryptValue`,
    `decryptBatch`, `generateReencryptSignature`, `signEIP712`,
    `requestDecryption`, `createReencryptionPermit`,
    `verifyDecryptSignature`;
  * `packages/fhevm-sdk/src/core/instance.ts` — `createFhevmInstance`,
    `getNetworkDefaults`, `isInstanceReady`;
  * `packages/fhevm-sdk/src/react/useFhevm.ts` — the session façade;
  * `packages/fhevm-sdk/src/react/useEncrypt.ts` /
    `packages/fhevm-sdk/src/react/useDecrypt.ts` — readiness-gated
    consumer helpers.

External collaborators (the wallet signer reached through
`window.ethereum`, the gateway's HTTP endpoint reached through `fetch`,
and `ethers.verifyMessage`) are modelled as an explicit environment of
pure functions.  Thrown `Error` values are modelled as `Except String`
carrying the error message, mirroring the `Error(message)` objects the
TypeScript code throws.  Observable side effects (engine calls, signing
delegation, HTTP requests) are returned as an explicit effect trace.
-/

namespace Fhevm

/-- EIP-712 domain object, as built by `generateReencryptSignature` and
`createReencryptionPermit` in `core/decrypt.ts`. -/
structure EIP712Domain where
  name : String
  version : String
  chainId : Nat
  verifyingContract : String
deriving Repr, DecidableEq

/-- One entry of an EIP-712 `types` schema: a field name together with its
Solidity type string. -/
structure EIP712Field where
  name : String
  fieldType : String
deriving Repr, DecidableEq

/-- The message payload signed for a reencryption request: the instance's
public key and the handle serialized with `handle.toString()`. -/
structure ReencryptMessage where
  publicKey : String
  handle : String
deriving Repr, DecidableEq

/-- Result of `generateReencryptSignature`: the signature together with the
public key that was embedded in the signed message. -/
structure EIP712Signature where
  signature : String
  publicKey : String
deriving Repr, DecidableEq

/-- JSON body returned by the gateway: the protocol-guaranteed `value`
field (a base-10 integer string) plus any further fields the gateway chose
to include (`extra`, as key/value pairs). -/
structure GatewayResponseBody where
  value : String
  extra : List (String × String)
deriving Repr, DecidableEq

/-- HTTP response as observed through `fetch`: the `ok` flag, the numeric
status code, the status text (reason phrase) and the parsed JSON body. -/
structure HttpResponse where
  ok : Bool
  status : Nat
  statusText : String
  body : GatewayResponseBody
deriving Repr, DecidableEq

/-- The POST request `requestDecryption` sends to the gateway: target URL
and the four JSON body fields. -/
structure GatewayRequest where
  url : String
  handle : String
  publicKey : String
  signature : String
  contractAddress : String
deriving Repr, DecidableEq

/-- Observable side effects of the decryption session: an engine call
retrieving the public key, a typed-data signing delegation to the wallet,
or an HTTP request to the gateway. -/
inductive Effect where
  | getPublicKey : Effect
  | sign (domain : EIP712Domain) (types : List EIP712Field)
      (message : ReencryptMessage) : Effect
  | http (req : GatewayRequest) : Effect
deriving Repr, DecidableEq

/-- The client-side FHEVM instance, as configured by
`createFhevmInstance`: keypair presence flag, public key, and the
configuration the instance was created with. -/
structure FhevmInstance where
  hasKeypair : Bool
  publicKey : String
  gatewayUrl : String
  kmsContractAddress : String
  aclContractAddress : String
deriving Repr, DecidableEq

/-- External collaborators of the decryption session: the wallet's
typed-data signing capability (`signer.signTypedData`, failing with the
`No Ethereum provider found` message when absent), the chain id of the
signer's connected network (`provider.getNetwork()`), and the gateway's
HTTP endpoint (`fetch`). -/
structure Env where
  signTypedData : EIP712Domain → List EIP712Field → ReencryptMessage →
    Except String String
  chainId : Nat
  gateway : GatewayRequest → HttpResponse

/-- `DecryptOptions` from `core/decrypt.ts`: contract address, user
address, optional per-call gateway URL override. -/
structure DecryptOptions where
  contractAddress : String
  userAddress : String
  gatewayUrl : Option String
deriving Repr, DecidableEq

/-- A handle argument to `decryptValue`: either a `bigint` or its string
form (`bigint | string` in the source). -/
inductive HandleInput where
  | big (i : Int) : HandleInput
  | str (s : String) : HandleInput
deriving Repr, DecidableEq

/-- What `decryptValue` stores in the untyped `raw` field of a
`DecryptResult`.  The source assigns the parsed integer; the `json`
constructor exists so the specification's reading (the gateway's whole
response payload) is also expressible for comparison. -/
inductive RawPayload where
  | int (i : Int) : RawPayload
  | json (body : GatewayResponseBody) : RawPayload
deriving Repr, DecidableEq

/-- `DecryptResult` from `core/decrypt.ts`.  On the decrypt path the
`value` field always holds `BigInt(data.value)`, hence `Int` here. -/
structure DecryptResult where
  value : Int
  raw : RawPayload
deriving Repr, DecidableEq

/-- Decidable equality for `Except`, so that concrete runs of the
embedded operations can be checked by evaluation. -/
instance {ε α : Type} [DecidableEq ε] [DecidableEq α] :
    DecidableEq (Except ε α) := fun x y =>
  match x, y with
  | Except.ok a, Except.ok b =>
      if h : a = b then isTrue (by rw [h]) else isFalse (by simp [h])
  | Except.error e, Except.error f =>
      if h : e = f then isTrue (by rw [h]) else isFalse (by simp [h])
  | Except.ok _, Except.error _ => isFalse (by simp)
  | Except.error _, Except.ok _ => isFalse (by simp)

/-- Fold a digit list into a natural number, `none` unless every character
is a decimal digit (and the list is non-empty). -/
def digitsToNat (cs : List Char) : Option Nat :=
  if cs = [] then none
  else if cs.all Char.isDigit then
    some (cs.foldl (fun a c => a * 10 + (c.toNat - 48)) 0)
  else none

/-- Strip leading and trailing whitespace from a character list. -/
def trimChars (cs : List Char) : List Char :=
  ((cs.dropWhile Char.isWhitespace).reverse.dropWhile
    Char.isWhitespace).reverse

/-- Model of the JavaScript `BigInt(string)` conversion on ordinary
decimal inputs: leading/trailing whitespace is ignored, the empty string
converts to `0`, an optional minus sign precedes decimal digits, and any
other input throws (here: `none`). -/
def parseBigInt (s : String) : Option Int :=
  match trimChars s.data with
  | [] => some (0 : Int)
  | '-' :: rest => (digitsToNat rest).map (fun n => -(n : Int))
  | cs => (digitsToNat cs).map (fun n => (n : Int))

/-- The handle coercion at the top of `decryptValue`:
`typeof handle === 'string' ? BigInt(handle) : handle`. -/
def handleToInt : HandleInput → Option Int
  | HandleInput.big i => some i
  | HandleInput.str s => parseBigInt s

/-- The textual form of a handle argument, as it would appear in the
JavaScript conversion error message. -/
def handleString : HandleInput → String
  | HandleInput.big i => toString i
  | HandleInput.str s => s

/-- JavaScript `a || b` on an optional string: the fallback is used when
the field is absent or the empty string (the only falsy string). -/
def orDefault (v : Option String) (d : String) : String :=
  match v with
  | some s => if s = "" then d else s
  | none => d

/-- The hardcoded default gateway of `decryptValue`:
`options.gatewayUrl || 'https://gateway.sepolia.zama.ai'`. -/
def defaultGatewayUrl : String := "https://gateway.sepolia.zama.ai"

/-- Gateway URL as resolved inside `decryptValue` (lines 53-60 of
`core/decrypt.ts`): the per-call override when truthy, else the hardcoded
default.  The instance's configured gateway URL does not appear here. -/
def resolveGatewayUrl (options : DecryptOptions) : String :=
  orDefault options.gatewayUrl defaultGatewayUrl

/-- The EIP-712 domain built by `generateReencryptSignature`: name
`Authorization token`, version `1`, chain id hardcoded to `11155111`
(the source comments it `// Sepolia`), verifying contract the target
contract address. -/
def reencryptDomain (contractAddress : String) : EIP712Domain :=
  { name := "Authorization token"
    version := "1"
    chainId := 11155111
    verifyingContract := contractAddress }

/-- The EIP-712 `types` schema of the reencryption authorization:
`Reencrypt { publicKey : bytes, handle : uint256 }`. -/
def reencryptTypes : List EIP712Field :=
  [{ name := "publicKey", fieldType := "bytes" },
   { name := "handle", fieldType := "uint256" }]

/-- The message signed for a reencryption request: the instance's public
key and `handle.toString()` (base-10). -/
def mkReencryptMessage (inst : FhevmInstance) (handle : Int) :
    ReencryptMessage :=
  { publicKey := inst.publicKey, handle := toString handle }

/-- `generateReencryptSignature` from `core/decrypt.ts` (lines 101-142):
reads the instance's public key, builds domain, types and message, and
delegates signing via `signEIP712`; any failure is rethrown as
`Failed to generate reencryption signature: <msg>`.  The `userAddress`
parameter is accepted but, as in the source, not used by the signing
path (the signer comes from the browser provider). -/
def generateReencryptSignature (env : Env) (inst : FhevmInstance)
    (handle : Int) (contractAddress _userAddress : String) :
    Except String EIP712Signature × List Effect :=
  let publicKey := inst.publicKey
  let domain := reencryptDomain contractAddress
  let message := mkReencryptMessage inst handle
  let fx := [Effect.getPublicKey, Effect.sign domain reencryptTypes message]
  match env.signTypedData domain reencryptTypes message with
  | Except.ok sig =>
      (Except.ok { signature := sig, publicKey := publicKey }, fx)
  | Except.error e =>
      (Except.error ("Failed to generate reencryption signature: " ++ e), fx)

/-- The gateway request built by `requestDecryption`: POST to
`<gatewayUrl>/reencrypt` with JSON body
`{handle: handle.toString(), publicKey, signature, contractAddress}`. -/
def mkGatewayRequest (handle : Int) (publicKey signature contractAddress
    gatewayUrl : String) : GatewayRequest :=
  { url := gatewayUrl ++ "/reencrypt"
    handle := toString handle
    publicKey := publicKey
    signature := signature
    contractAddress := contractAddress }

/-- `requestDecryption` from `core/decrypt.ts` (lines 179-205): one HTTP
POST; on a non-ok response throws
`Gateway request failed: <statusText>`; on success parses the body's
`value` field with `BigInt`. -/
def requestDecryption (env : Env) (handle : Int) (publicKey signature
    contractAddress gatewayUrl : String) : Except String Int × List Effect :=
  let req := mkGatewayRequest handle publicKey signature contractAddress
    gatewayUrl
  let resp := env.gateway req
  (if resp.ok then
      match parseBigInt resp.body.value with
      | some v => Except.ok v
      | none =>
          Except.error ("Cannot convert " ++ resp.body.value ++ " to a BigInt")
    else Except.error ("Gateway request failed: " ++ resp.statusText),
   [Effect.http req])

/-- The body of `decryptValue` after the handle coercion has produced a
`bigint`: signature generation, gateway request and result assembly
`{value: decryptedValue, raw: decryptedValue}`, with the enclosing
try/catch rethrowing every failure as `Decryption failed: <msg>`. -/
def decryptValueCore (env : Env) (inst : FhevmInstance)
    (handleBigInt : Int) (options : DecryptOptions) :
    Except String DecryptResult × List Effect :=
  match generateReencryptSignature env inst handleBigInt
    options.contractAddress options.userAddress with
  | (Except.error e, fx) =>
      (Except.error ("Decryption failed: " ++ e), fx)
  | (Except.ok sig, fx1) =>
      match requestDecryption env handleBigInt sig.publicKey
        sig.signature options.contractAddress
        (resolveGatewayUrl options) with
      | (Except.error e, fx2) =>
          (Except.error ("Decryption failed: " ++ e), fx1 ++ fx2)
      | (Except.ok v, fx2) =>
          (Except.ok { value := v, raw := RawPayload.int v }, fx1 ++ fx2)

/-- `decryptValue` from `core/decrypt.ts` (lines 32-69): keypair check,
then the coercion `typeof handle === 'string' ? BigInt(handle) : handle`
(whose conversion failure is caught and rethrown as
`Decryption failed: Cannot convert <s> to a BigInt`), then
`decryptValueCore`. -/
def decryptValue (env : Env) (inst : FhevmInstance) (handle : HandleInput)
    (options : DecryptOptions) : Except String DecryptResult × List Effect :=
  if !inst.hasKeypair then
    (Except.error "Decryption failed: Instance does not have a keypair", [])
  else
    match handle with
    | HandleInput.str s =>
        match parseBigInt s with
        | none =>
            (Except.error ("Decryption failed: Cannot convert " ++ s ++
              " to a BigInt"), [])
        | some handleBigInt => decryptValueCore env inst handleBigInt options
    | HandleInput.big handleBigInt =>
        decryptValueCore env inst handleBigInt options

/-- `decryptBatch` from `core/decrypt.ts` (lines 78-91): a `for` loop over
the handles, awaiting `decryptValue` for each and pushing the result; the
first failure propagates out of the loop and no array is returned. -/
def decryptBatch (env : Env) (inst : FhevmInstance)
    (handles : List HandleInput) (options : DecryptOptions) :
    Except String (List DecryptResult) × List Effect :=
  match handles with
  | [] => (Except.ok [], [])
  | h :: rest =>
      match decryptValue env inst h options with
      | (Except.error e, fx) => (Except.error e, fx)
      | (Except.ok r, fx) =>
          match decryptBatch env inst rest options with
          | (Except.error e, fx2) => (Except.error e, fx ++ fx2)
          | (Except.ok rs, fx2) => (Except.ok (r :: rs), fx ++ fx2)

/-- `createReencryptionPermit` from `core/decrypt.ts` (lines 216-245): a
longer-lived authorization binding the public key to an owner address,
whose EIP-712 domain resolves its chain id from the signer's connected
network (`await signer.provider?.getNetwork()`), in contrast to the
hardcoded chain id used by `generateReencryptSignature`. -/
def permitDomain (env : Env) (contractAddress : String) : EIP712Domain :=
  { name := "Authorization token"
    version := "1"
    chainId := env.chainId
    verifyingContract := contractAddress }

/-- `verifyDecryptSignature` from `core/decrypt.ts` (lines 253-264):
recovers the signer of a plain-message signature over the public key via
`ethers.verifyMessage` (modelled by the `recover` argument), compares
lowercased to the expected address, and returns `false` on any recovery
failure.  Total: it always returns a `Bool`, never throws. -/
def verifyDecryptSignature
    (recover : String → String → Except String String)
    (signature publicKey expectedAddress : String) : Bool :=
  match recover publicKey signature with
  | Except.ok recoveredAddress =>
      recoveredAddress.toLower == expectedAddress.toLower
  | Except.error _ => false

/-- `FhevmConfig` from `core/instance.ts`: all fields optional. -/
structure FhevmConfig where
  network : Option String := none
  gatewayUrl : Option String := none
  publicKey : Option String := none
  kmsContractAddress : Option String := none
  aclContractAddress : Option String := none
deriving Repr, DecidableEq

/-- One row of the network default table in `getNetworkDefaults`. -/
structure NetworkDefaults where
  gatewayUrl : String
  kmsContractAddress : String
  aclContractAddress : String
deriving Repr, DecidableEq

/-- The Ethereum zero address, used by the `localhost` default row. -/
def zeroAddress : String := "0x0000000000000000000000000000000000000000"

/-- The `sepolia` row of the default table in `core/instance.ts`. -/
def sepoliaDefaults : NetworkDefaults :=
  { gatewayUrl := "https://gateway.sepolia.zama.ai"
    kmsContractAddress := "0x9D6891A6240D6130c54ae243d8005063D05fE14b"
    aclContractAddress := "0xFee8407e2f5e3Ee68ad77cAE98c434e637f516e5" }

/-- The `localhost` row of the default table in `core/instance.ts`. -/
def localhostDefaults : NetworkDefaults :=
  { gatewayUrl := "http://localhost:8545"
    kmsContractAddress := zeroAddress
    aclContractAddress := zeroAddress }

/-- `getNetworkDefaults` from `core/instance.ts` (lines 54-69): the record
holds exactly the `sepolia` and `localhost` rows, and
`defaults[network] || defaults.sepolia` sends every other name to the
`sepolia` row. -/
def getNetworkDefaults (network : String) : NetworkDefaults :=
  if network = "sepolia" then sepoliaDefaults
  else if network = "localhost" then localhostDefaults
  else sepoliaDefaults

/-- The configuration `createFhevmInstance` hands to the engine's
`createInstance` after merging. -/
structure ResolvedConfig where
  kmsContractAddress : String
  aclContractAddress : String
  gatewayUrl : String
  publicKey : Option String
deriving Repr, DecidableEq

/-- The config merge inside `createFhevmInstance` (lines 27-47 of
`core/instance.ts`): `config.network || 'sepolia'` picks the default row,
then each of `kmsContractAddress`, `aclContractAddress`, `gatewayUrl` is
`config.field || networkDefaults.field`; `publicKey` is passed through
unmerged. -/
def resolveConfig (config : FhevmConfig) : ResolvedConfig :=
  let networkDefaults := getNetworkDefaults (orDefault config.network "sepolia")
  { kmsContractAddress :=
      orDefault config.kmsContractAddress networkDefaults.kmsContractAddress
    aclContractAddress :=
      orDefault config.aclContractAddress networkDefaults.aclContractAddress
    gatewayUrl := orDefault config.gatewayUrl networkDefaults.gatewayUrl
    publicKey := config.publicKey }

/-- The cryptographic engine as `createFhevmInstance` sees it: the global
`initFhevm()` bootstrap and the `createInstance(resolved)` constructor,
either of which may reject. -/
structure EngineEnv where
  initFhevm : Except String Unit
  createInstance : ResolvedConfig → Except String FhevmInstance

/-- `createFhevmInstance` from `core/instance.ts` (lines 27-47): bootstrap
the engine, merge the configuration, construct the instance; any failure
is rethrown as `Failed to create FHEVM instance: <msg>`. -/
def createFhevmInstance (eng : EngineEnv) (config : FhevmConfig) :
    Except String FhevmInstance :=
  match eng.initFhevm with
  | Except.error e =>
      Except.error ("Failed to create FHEVM instance: " ++ e)
  | Except.ok _ =>
      match eng.createInstance (resolveConfig config) with
      | Except.error e =>
          Except.error ("Failed to create FHEVM instance: " ++ e)
      | Except.ok inst => Except.ok inst

/-- `isInstanceReady` from `core/instance.ts` (lines 76-78): non-null and
`hasKeypair()`. -/
def isInstanceReady : Option FhevmInstance → Bool
  | none => false
  | some inst => inst.hasKeypair

/-- The session-state façade of `useFhevm.ts`: the four state cells held
by the hook (`instance`, `ready`, `error`, `loading`). -/
structure FacadeState where
  inst : Option FhevmInstance
  ready : Bool
  error : Option String
  loading : Bool
deriving Repr, DecidableEq

/-- The prefix of `useFhevm`'s `initialize` callback that runs before the
instance-creation call suspends: `setLoading(true); setError(null)`. -/
def startInit (s : FacadeState) : FacadeState :=
  { s with loading := true, error := none }

/-- The remainder of `useFhevm`'s `initialize` callback after the
instance-creation call settles: on success
`setInstance(newInstance); setReady(isInstanceReady(newInstance))`, on
failure `setError(err); setReady(false); setInstance(null)`, and in both
cases the `finally` block runs `setLoading(false)`. -/
def finishInit (s : FacadeState) (outcome : Except String FhevmInstance) :
    FacadeState :=
  match outcome with
  | Except.ok newInstance =>
      { s with inst := some newInstance
               ready := isInstanceReady (some newInstance)
               loading := false }
  | Except.error e =>
      { s with error := some e
               ready := false
               inst := none
               loading := false }

/-- One whole (re)initialization attempt of the façade (`initialize` in
`useFhevm.ts`, lines 29-48), as the state transformation from the state
before the attempt to the state after it settles. -/
def initAttempt (eng : EngineEnv) (config : FhevmConfig)
    (s : FacadeState) : FacadeState :=
  finishInit (startInit s) (createFhevmInstance eng config)

/-- Error message thrown by the readiness gate of `useEncrypt.encrypt`,
`useEncrypt.encryptMultiple`, `useDecrypt.decrypt` and
`useDecrypt.decryptMultiple` (the spec's `NotReadyError`). -/
def notReadyMessage : String :=
  "FHEVM instance not ready. Wait for initialization."

/-- The readiness gate shared by the hook helpers:
`if (!instance || !ready) throw new Error('FHEVM instance not ready...')`
before any call into the core, else run the core operation on the
instance. -/
def hookGate {α : Type} (inst : Option FhevmInstance) (ready : Bool)
    (core : FhevmInstance → Except String α × List Effect) :
    Except String α × List Effect :=
  match inst with
  | none => (Except.error notReadyMessage, [])
  | some i =>
      if !ready then (Except.error notReadyMessage, [])
      else core i

/-- `useDecrypt.decrypt` (lines 36-59 of `useDecrypt.ts`), reduced to its
observable contract: the readiness gate followed by the core
`decryptValue` call (the hook's `decrypting` / `lastDecrypted` / `error`
cells only mirror this outcome). -/
def useDecrypt_decrypt (env : Env) (inst : Option FhevmInstance)
    (ready : Bool) (handle : HandleInput) (options : DecryptOptions) :
    Except String DecryptResult × List Effect :=
  hookGate inst ready (fun i => decryptValue env i handle options)

/-- `useEncrypt.encrypt` (lines 35-61 of `useEncrypt.ts`), reduced to its
observable contract: the readiness gate followed by the core
`encryptValue` call.  The encryption core (`core/encrypt.ts`) is not part
of the sources in scope, so the gated operation is abstracted as the
function argument `encryptValueCore`; the gate itself never consults
it. -/
def useEncrypt_encrypt {α : Type} (inst : Option FhevmInstance)
    (ready : Bool)
    (encryptValueCore : FhevmInstance → Except String α × List Effect) :
    Except String α × List Effect :=
  hookGate inst ready encryptValueCore

/-! Concrete sample data used to evaluate the embedding on explicit
inputs (witnesses and counterexamples). -/

/-- A gateway stub answering HTTP 200 with body `{"value": "42"}`. -/
def okGatewayResponse : HttpResponse :=
  { ok := true, status := 200, statusText := "OK"
    body := { value := "42", extra := [] } }

/-- An environment whose wallet signs everything and whose gateway always
answers `okGatewayResponse`; the signer's connected network is a local
Hardhat node (chain id 31337). -/
def okEnv : Env :=
  { signTypedData := fun _ _ _ => Except.ok "0xsig"
    chainId := 31337
    gateway := fun _ => okGatewayResponse }

/-- An environment whose gateway fails every request with the given
status code and status text. -/
def gwFailEnv (status : Nat) (text : String) : Env :=
  { signTypedData := fun _ _ _ => Except.ok "0xsig"
    chainId := 11155111
    gateway := fun _ =>
      { ok := false, status := status, statusText := text
        body := { value := "0", extra := [] } } }

/-- An environment whose gateway answers HTTP 200 with a body carrying
one field beyond `value`: `{"value": "42", "proof": "abc"}`. -/
def extraFieldEnv : Env :=
  { signTypedData := fun _ _ _ => Except.ok "0xsig"
    chainId := 11155111
    gateway := fun _ =>
      { ok := true, status := 200, statusText := "OK"
        body := { value := "42", extra := [("proof", "abc")] } } }

/-- A ready instance configured with the sepolia defaults. -/
def readyInst : FhevmInstance :=
  { hasKeypair := true
    publicKey := "0xPK"
    gatewayUrl := sepoliaDefaults.gatewayUrl
    kmsContractAddress := sepoliaDefaults.kmsContractAddress
    aclContractAddress := sepoliaDefaults.aclContractAddress }

/-- A ready instance configured with the localhost defaults (gateway
`http://localhost:8545`). -/
def localInst : FhevmInstance :=
  { hasKeypair := true
    publicKey := "0xPK"
    gatewayUrl := localhostDefaults.gatewayUrl
    kmsContractAddress := zeroAddress
    aclContractAddress := zeroAddress }

/-- Decrypt options with no per-call gateway override. -/
def sampleOptions : DecryptOptions :=
  { contractAddress := "0xContract", userAddress := "0xUser"
    gatewayUrl := none }

/-- Decrypt options carrying an explicit per-call gateway override. -/
def overrideOptions : DecryptOptions :=
  { contractAddress := "0xContract", userAddress := "0xUser"
    gatewayUrl := some "https://gw.example" }

/-- A configuration whose gateway URL is explicitly set to the empty
string (set, but falsy in JavaScript). -/
def emptyGatewayConfig : FhevmConfig := { gatewayUrl := some "" }

/-- A configuration selecting the `localhost` network with no overrides. -/
def localhostConfig : FhevmConfig := { network := some "localhost" }

/-- A configuration naming an unrecognized network, with an explicit
gateway override. -/
def unknownNetConfig : FhevmConfig :=
  { network := some "mainnet", gatewayUrl := some "https://gw.example" }

/-! Theorems. -/

/-- C10: for every environment, instance and options, `decryptBatch`
applied to the empty handle list returns the empty array with an empty
effect trace — no signature generation and no gateway request — including
for instances that are not ready, since the loop body (and with it the
per-element keypair check) is never reached. -/
theorem decryptBatch_nil (env : Env) (inst : FhevmInstance)
    (options : DecryptOptions) :
    decryptBatch env inst [] options = (Except.ok [], []) := rfl

/-- C5: calling the façade's encrypt or decrypt helper while `ready` is
false always fails with the `NotReadyError` message
(`FHEVM instance not ready. Wait for initialization.`) and performs no
network or engine call (empty effect trace), whatever the gated core
operation would do. -/
theorem hook_not_ready_gating (α : Type) (env : Env)
    (inst : Option FhevmInstance) (handle : HandleInput)
    (options : DecryptOptions)
    (core : FhevmInstance → Except String α × List Effect) :
    useEncrypt_encrypt inst false core
      = (Except.error notReadyMessage, []) ∧
    useDecrypt_decrypt env inst false handle options
      = (Except.error notReadyMessage, []) := by
  cases inst <;>
    simp [useEncrypt_encrypt, useDecrypt_decrypt, hookGate]

/-- C9: `verifyDecryptSignature` is a total boolean predicate: it returns
`true` exactly when address recovery succeeds and the recovered address
equals the expected one under case-insensitive (lowercased) comparison,
and it returns `false` — rather than propagating an error — whenever
recovery fails. -/
theorem verifyDecryptSignature_spec
    (recover : String → String → Except String String)
    (signature publicKey expectedAddress : String) :
    (verifyDecryptSignature recover signature publicKey expectedAddress
        = true ↔
      ∃ r, recover publicKey signature = Except.ok r ∧
        r.toLower = expectedAddress.toLower) ∧
    (∀ e, recover publicKey signature = Except.error e →
      verifyDecryptSignature recover signature publicKey expectedAddress
        = false) := by
  constructor
  · unfold verifyDecryptSignature
    cases h : recover publicKey signature with
    | ok r => simp [h]
    | error e => simp [h]
  · intro e he
    unfold verifyDecryptSignature
    rw [he]

/-- Witness for C9: with a recovery stub that always fails, the predicate
evaluates to `false` at a concrete input. -/
theorem verifyDecryptSignature_spec_witness :
    verifyDecryptSignature (fun _ _ => Except.error "recovery failed")
      "0xsig" "0xPK" "0xAbCd" = false :=
  (verifyDecryptSignature_spec (fun _ _ => Except.error "recovery failed")
    "0xsig" "0xPK" "0xAbCd").2 "recovery failed" rfl

/-- C8: in every (re)initialization attempt of the session façade, the
`error` cell is cleared and `loading` is raised when the attempt starts;
once the instance-creation call settles, `loading` is lowered, `ready`
equals `isInstanceReady` of the stored instance (in both outcomes), and
on failure the `error` cell holds exactly that failure while the instance
is absent and `ready` is false; a full attempt is the composition of the
two phases around `createFhevmInstance`. -/
theorem facade_init_attempt_spec (s : FacadeState)
    (outcome : Except String FhevmInstance) :
    (startInit s).error = none ∧
    (startInit s).loading = true ∧
    (finishInit (startInit s) outcome).loading = false ∧
    ((finishInit (startInit s) outcome).ready
      = isInstanceReady (finishInit (startInit s) outcome).inst) ∧
    (∀ e, outcome = Except.error e →
      (finishInit (startInit s) outcome).error = some e ∧
      (finishInit (startInit s) outcome).inst = none ∧
      (finishInit (startInit s) outcome).ready = false) ∧
    (∀ newInstance, outcome = Except.ok newInstance →
      (finishInit (startInit s) outcome).inst = some newInstance ∧
      (finishInit (startInit s) outcome).error = none) ∧
    (∀ (eng : EngineEnv) (config : FhevmConfig),
      initAttempt eng config s
        = finishInit (startInit s) (createFhevmInstance eng config)) := by
  cases outcome <;>
    simp [startInit, finishInit, initAttempt, isInstanceReady]

/-- Witness for C8: a failed creation attempt starting from a ready state
ends with the failure recorded, no instance, not ready, not loading. -/
theorem facade_init_attempt_spec_witness :
    (finishInit (startInit
        { inst := some Fhevm.readyInst, ready := true, error := none
          loading := false })
      (Except.error "engine bootstrap failed")).error
        = some "engine bootstrap failed" ∧
    (finishInit (startInit
        { inst := some Fhevm.readyInst, ready := true, error := none
          loading := false })
      (Except.error "engine bootstrap failed")).inst = none ∧
    (finishInit (startInit
        { inst := some Fhevm.readyInst, ready := true, error := none
          loading := false })
      (Except.error "engine bootstrap failed")).ready = false :=
  (facade_init_attempt_spec
    { inst := some Fhevm.readyInst, ready := true, error := none
      loading := false }
    (Except.error "engine bootstrap failed")).2.2.2.2.1
    "engine bootstrap failed" rfl

/-- Counterexample for C2: the claim says the signed domain's chain id is
the network's chain id.  In an environment whose connected network is a
local Hardhat node (chain id 31337) — the chain id the source itself
would resolve for `createReencryptionPermit` via
`signer.provider?.getNetwork()` — `generateReencryptSignature` still
signs a domain with chain id 11155111, the hardcoded Sepolia value. -/
theorem reencrypt_domain_chainId_hardcoded_cex :
    (generateReencryptSignature okEnv localInst 5 "0xContract" "0xUser").2
      = [Effect.getPublicKey,
         Effect.sign (reencryptDomain "0xContract") reencryptTypes
           (mkReencryptMessage localInst 5)] ∧
    (reencryptDomain "0xContract").chainId = 11155111 ∧
    (permitDomain okEnv "0xContract").chainId = 31337 ∧
    (reencryptDomain "0xContract").chainId
      ≠ (permitDomain okEnv "0xContract").chainId :=
  ⟨rfl, rfl, rfl, by decide⟩

/-- C2 (amended): for every call, `generateReencryptSignature` signs a
typed-data message whose domain is `{name: Authorization token, version:
1, chainId: 11155111 (hardcoded, regardless of the network in use),
verifyingContract: the target contract address}`, whose schema binds a
`publicKey` field of type `bytes` and a `handle` field of type `uint256`,
and whose message carries the instance's public key and the handle
serialized as a base-10 string. -/
theorem reencrypt_domain_spec (env : Env) (inst : FhevmInstance)
    (handle : Int) (contractAddress userAddress : String) :
    (generateReencryptSignature env inst handle contractAddress
        userAddress).2
      = [Effect.getPublicKey,
         Effect.sign (reencryptDomain contractAddress) reencryptTypes
           (mkReencryptMessage inst handle)] ∧
    reencryptDomain contractAddress
      = { name := "Authorization token", version := "1"
          chainId := 11155111, verifyingContract := contractAddress } ∧
    reencryptTypes
      = [{ name := "publicKey", fieldType := "bytes" },
         { name := "handle", fieldType := "uint256" }] ∧
    (mkReencryptMessage inst handle).publicKey = inst.publicKey ∧
    (mkReencryptMessage inst handle).handle = toString handle := by
  refine ⟨?_, rfl, rfl, rfl, rfl⟩
  unfold generateReencryptSignature
  cases h : env.signTypedData (reencryptDomain contractAddress)
    reencryptTypes (mkReencryptMessage inst handle) <;> simp [h]

/-- Associativity of string concatenation, used to normalize the nested
error-message prefixes produced by the rethrowing catch blocks. -/
theorem string_append_assoc (a b c : String) : a ++ b ++ c = a ++ (b ++ c) := by
  cases a with
  | mk xs =>
    cases b with
    | mk ys =>
      cases c with
      | mk zs =>
        show String.mk (xs ++ ys ++ zs) = String.mk (xs ++ (ys ++ zs))
        rw [List.append_assoc]

/-- Unfolded form of `decryptValueCore`: one equation exposing the
signing delegation, the gateway round trip and the result assembly with
every intermediate value written out.  Shared by the decryption-session
theorems below. -/
theorem decryptValueCore_eq (env : Env) (inst : FhevmInstance) (hi : Int)
    (options : DecryptOptions) :
    decryptValueCore env inst hi options =
      (let fx1 := [Effect.getPublicKey,
          Effect.sign (reencryptDomain options.contractAddress)
            reencryptTypes (mkReencryptMessage inst hi)]
       match env.signTypedData (reencryptDomain options.contractAddress)
          reencryptTypes (mkReencryptMessage inst hi) with
        | Except.error e =>
            (Except.error
              ("Decryption failed: Failed to generate reencryption signature: "
                ++ e), fx1)
        | Except.ok s =>
            let req := mkGatewayRequest hi inst.publicKey s
              options.contractAddress (resolveGatewayUrl options)
            let resp := env.gateway req
            if resp.ok then
              match parseBigInt resp.body.value with
              | some v =>
                  (Except.ok ({ value := v, raw := RawPayload.int v } :
                    DecryptResult), fx1 ++ [Effect.http req])
              | none =>
                  (Except.error ("Decryption failed: Cannot convert " ++
                    resp.body.value ++ " to a BigInt"),
                   fx1 ++ [Effect.http req])
            else
              (Except.error ("Decryption failed: Gateway request failed: "
                ++ resp.statusText), fx1 ++ [Effect.http req])) := by
  unfold decryptValueCore generateReencryptSignature requestDecryption
  cases hs : env.signTypedData (reencryptDomain options.contractAddress)
      reencryptTypes (mkReencryptMessage inst hi) with
  | error e =>
    simp [hs]
    simp only [← string_append_assoc]
    rfl
  | ok s =>
    simp only [hs]
    cases hok : (env.gateway (mkGatewayRequest hi inst.publicKey s
        options.contractAddress (resolveGatewayUrl options))).ok with
    | false =>
      simp [hok]
      simp only [← string_append_assoc]
      rfl
    | true =>
      cases hp : parseBigInt (env.gateway (mkGatewayRequest hi
          inst.publicKey s options.contractAddress
          (resolveGatewayUrl options))).body.value with
      | none =>
        simp [hok, hp]
        simp only [← string_append_assoc]
        rfl
      | some v => simp [hok, hp]

/-- Unfolded form of `decryptValue` in terms of the keypair check, the
handle coercion `handleToInt` and `decryptValueCore`. -/
theorem decryptValue_eq (env : Env) (inst : FhevmInstance)
    (handle : HandleInput) (options : DecryptOptions) :
    decryptValue env inst handle options =
      if !inst.hasKeypair then
        (Except.error "Decryption failed: Instance does not have a keypair",
         [])
      else
        match handleToInt handle with
        | none =>
            (Except.error ("Decryption failed: Cannot convert " ++
              handleString handle ++ " to a BigInt"), [])
        | some hi => decryptValueCore env inst hi options := by
  cases hk : inst.hasKeypair with
  | false => simp [decryptValue, hk]
  | true =>
    cases handle with
    | big i => simp [decryptValue, hk, handleToInt]
    | str s =>
      cases hp : parseBigInt s <;>
        simp [decryptValue, hk, handleToInt, hp, handleString]

/-- Counterexample for C3: the claim says the instance's configured
gateway URL is used when no per-call override is given.  A call on an
instance configured with the localhost gateway (`http://localhost:8545`)
and no override sends its HTTP request to the hardcoded sepolia default
instead. -/
theorem decryptValue_instance_gateway_ignored_cex :
    (decryptValue okEnv localInst (HandleInput.big 7) sampleOptions).2
      = [Effect.getPublicKey,
         Effect.sign (reencryptDomain "0xContract") reencryptTypes
           (mkReencryptMessage localInst 7),
         Effect.http (mkGatewayRequest 7 "0xPK" "0xsig" "0xContract"
           defaultGatewayUrl)] ∧
    localInst.gatewayUrl = "http://localhost:8545" ∧
    sampleOptions.gatewayUrl = none ∧
    (mkGatewayRequest 7 "0xPK" "0xsig" "0xContract" defaultGatewayUrl).url
      = "https://gateway.sepolia.zama.ai/reencrypt" ∧
    "https://gateway.sepolia.zama.ai/reencrypt"
      ≠ "http://localhost:8545/reencrypt" :=
  ⟨by decide, by decide, rfl, by decide, by decide⟩

/-- C3 (amended): the gateway URL used by `decryptValue` is the per-call
override in `options` when set to a non-empty string, else the hardcoded
default `https://gateway.sepolia.zama.ai`; the instance's configured
gateway URL is never consulted (replacing it changes nothing), and every
HTTP request of a call targets `<resolved URL>/reencrypt`. -/
theorem decryptValue_gateway_resolution (env : Env) (inst : FhevmInstance)
    (handle : HandleInput) (options : DecryptOptions) (u : String) :
    decryptValue env { inst with gatewayUrl := u } handle options
      = decryptValue env inst handle options ∧
    (∀ req, Effect.http req ∈ (decryptValue env inst handle options).2 →
      req.url = resolveGatewayUrl options ++ "/reencrypt") ∧
    resolveGatewayUrl options
      = orDefault options.gatewayUrl defaultGatewayUrl := by
  refine ⟨?_, ?_, rfl⟩
  · cases inst
    rfl
  · intro req hmem
    rw [decryptValue_eq] at hmem
    split at hmem
    · simp at hmem
    · split at hmem
      · simp at hmem
      · rw [decryptValueCore_eq] at hmem
        simp only [] at hmem
        split at hmem
        · simp at hmem
        · split at hmem
          · split at hmem
            · simp at hmem
              subst hmem
              rfl
            · simp at hmem
              subst hmem
              rfl
          · simp at hmem
            subst hmem
            rfl

/-- Witness for C3: with an explicit non-empty per-call override, a
successful call's HTTP request goes to `<override>/reencrypt`. -/
theorem decryptValue_gateway_resolution_witness :
    (mkGatewayRequest 7 "0xPK" "0xsig" "0xContract"
        (resolveGatewayUrl overrideOptions)).url
      = resolveGatewayUrl overrideOptions ++ "/reencrypt" :=
  (decryptValue_gateway_resolution okEnv readyInst (HandleInput.big 7)
      overrideOptions "unused").2.1
    (mkGatewayRequest 7 "0xPK" "0xsig" "0xContract"
      (resolveGatewayUrl overrideOptions))
    (by decide)

/-- Counterexample for C1: the claim says a non-success HTTP response
fails with an error carrying the HTTP status.  Two gateway failures that
differ only in the numeric status (500 vs 503, same status text) produce
identical error outcomes, so the error cannot carry the status; the error
carries the status text only. -/
theorem decryptValue_error_lacks_status_cex :
    (decryptValue (gwFailEnv 500 "Error") readyInst (HandleInput.big 1)
        sampleOptions).1
      = (decryptValue (gwFailEnv 503 "Error") readyInst (HandleInput.big 1)
          sampleOptions).1 ∧
    (500 : Nat) ≠ 503 ∧
    (decryptValue (gwFailEnv 500 "Error") readyInst (HandleInput.big 1)
        sampleOptions).1
      = Except.error "Decryption failed: Gateway request failed: Error" :=
  ⟨by decide, by decide, by decide⟩

/-- C1 (amended): `decryptValue` produces a `DecryptResult` only if the
authorization signature was successfully generated and the gateway
responded with HTTP success; on any non-success HTTP response it fails
with an error carrying the HTTP status text (the numeric status code is
not preserved), and no partial or placeholder result object is ever
returned (the error outcome carries no result at all). -/
theorem decryptValue_gateway_failure_spec (env : Env)
    (inst : FhevmInstance) (handle : HandleInput)
    (options : DecryptOptions) :
    (∀ r fx, decryptValue env inst handle options = (Except.ok r, fx) →
      inst.hasKeypair = true ∧
      ∃ hi, handleToInt handle = some hi ∧
        ∃ s, env.signTypedData (reencryptDomain options.contractAddress)
            reencryptTypes (mkReencryptMessage inst hi) = Except.ok s ∧
          (env.gateway (mkGatewayRequest hi inst.publicKey s
            options.contractAddress (resolveGatewayUrl options))).ok
              = true) ∧
    (∀ hi s, inst.hasKeypair = true → handleToInt handle = some hi →
      env.signTypedData (reencryptDomain options.contractAddress)
        reencryptTypes (mkReencryptMessage inst hi) = Except.ok s →
      (env.gateway (mkGatewayRequest hi inst.publicKey s
        options.contractAddress (resolveGatewayUrl options))).ok = false →
      (decryptValue env inst handle options).1
        = Except.error ("Decryption failed: Gateway request failed: " ++
            (env.gateway (mkGatewayRequest hi inst.publicKey s
              options.contractAddress
              (resolveGatewayUrl options))).statusText)) := by
  constructor
  · intro r fx heq
    rw [decryptValue_eq] at heq
    split at heq
    · simp at heq
    · rename_i hk
      split at heq
      · simp at heq
      · rename_i hi hhi
        rw [decryptValueCore_eq] at heq
        simp only [] at heq
        split at heq
        · simp at heq
        · rename_i s hs
          split at heq
          · rename_i hok
            refine ⟨?_, hi, hhi, s, hs, hok⟩
            simpa using hk
          · simp at heq
  · intro hi s hk hhi hs hok
    rw [decryptValue_eq, hhi]
    simp only [hk, Bool.not_true, Bool.false_eq_true, if_false]
    rw [decryptValueCore_eq]
    simp [hs, hok]

/-- Witness for C1 (amended): a gateway stub answering HTTP 500 with
status text `Internal Server Error` makes `decryptValue` fail with
exactly that status text in the error message. -/
theorem decryptValue_gateway_failure_spec_witness :
    (decryptValue (gwFailEnv 500 "Internal Server Error") readyInst
        (HandleInput.big 1) sampleOptions).1
      = Except.error ("Decryption failed: Gateway request failed: " ++
          ((gwFailEnv 500 "Internal Server Error").gateway
            (mkGatewayRequest 1 readyInst.publicKey "0xsig"
              sampleOptions.contractAddress
              (resolveGatewayUrl sampleOptions))).statusText) :=
  (decryptValue_gateway_failure_spec (gwFailEnv 500 "Internal Server Error")
      readyInst (HandleInput.big 1) sampleOptions).2 1 "0xsig"
    rfl rfl rfl rfl

/-- Counterexample for C7: the claim says the `raw` field of a
`DecryptResult` contains the gateway's response payload with all fields
beyond `value` preserved.  With a gateway body
`{"value": "42", "proof": "abc"}`, the produced `raw` is the parsed
integer 42, not the payload: the `proof` field is dropped. -/
theorem decryptValue_raw_not_payload_cex :
    (decryptValue extraFieldEnv readyInst (HandleInput.big 1)
        sampleOptions).1
      = Except.ok { value := 42, raw := RawPayload.int 42 } ∧
    RawPayload.int 42
      ≠ RawPayload.json { value := "42", extra := [("proof", "abc")] } :=
  ⟨by decide, by decide⟩

/-- C7 (amended): for every successful `decryptValue` call, the result's
`value` field is the gateway response's `value` field parsed as an
arbitrary-precision integer, and the `raw` field holds that same parsed
integer (duplicating `value`); the gateway's wider response payload is
not preserved. -/
theorem decryptValue_raw_duplicates_value (env : Env)
    (inst : FhevmInstance) (handle : HandleInput)
    (options : DecryptOptions) (r : DecryptResult) (fx : List Effect) :
    decryptValue env inst handle options = (Except.ok r, fx) →
    ∃ hi s, handleToInt handle = some hi ∧
      env.signTypedData (reencryptDomain options.contractAddress)
        reencryptTypes (mkReencryptMessage inst hi) = Except.ok s ∧
      parseBigInt ((env.gateway (mkGatewayRequest hi inst.publicKey s
        options.contractAddress (resolveGatewayUrl options))).body.value)
          = some r.value ∧
      r.raw = RawPayload.int r.value := by
  intro heq
  rw [decryptValue_eq] at heq
  split at heq
  · simp at heq
  · split at heq
    · simp at heq
    · rename_i hi hhi
      rw [decryptValueCore_eq] at heq
      simp only [] at heq
      split at heq
      · simp at heq
      · rename_i s hs
        split at heq
        · split at heq
          · rename_i v hp
            simp only [Prod.mk.injEq, Except.ok.injEq] at heq
            obtain ⟨hr, -⟩ := heq
            refine ⟨hi, s, hhi, hs, ?_, ?_⟩
            · rw [← hr]
              exact hp
            · rw [← hr]
          · simp at heq
        · simp at heq

/-- Witness for C7 (amended): evaluating the conclusion on the concrete
environment whose gateway returns `{"value": "42", "proof": "abc"}`. -/
theorem decryptValue_raw_duplicates_value_witness :
    ∃ hi s, handleToInt (HandleInput.big 1) = some hi ∧
      extraFieldEnv.signTypedData
        (reencryptDomain sampleOptions.contractAddress) reencryptTypes
        (mkReencryptMessage readyInst hi) = Except.ok s ∧
      parseBigInt ((extraFieldEnv.gateway (mkGatewayRequest hi
        readyInst.publicKey s sampleOptions.contractAddress
        (resolveGatewayUrl sampleOptions))).body.value)
          = some ({ value := 42, raw := RawPayload.int 42 }
              : DecryptResult).value ∧
      ({ value := 42, raw := RawPayload.int 42 } : DecryptResult).raw
        = RawPayload.int
            ({ value := 42, raw := RawPayload.int 42 } : DecryptResult).value :=
  decryptValue_raw_duplicates_value extraFieldEnv readyInst
    (HandleInput.big 1) sampleOptions
    { value := 42, raw := RawPayload.int 42 }
    [Effect.getPublicKey,
     Effect.sign (reencryptDomain sampleOptions.contractAddress)
       reencryptTypes (mkReencryptMessage readyInst 1),
     Effect.http (mkGatewayRequest 1 readyInst.publicKey "0xsig"
       sampleOptions.contractAddress (resolveGatewayUrl sampleOptions))]
    (by decide)

/-- Unfolding equation for `decryptBatch` on a non-empty list: the head
is decrypted first and the remainder only runs if the head succeeded. -/
theorem decryptBatch_cons (env : Env) (inst : FhevmInstance)
    (h : HandleInput) (rest : List HandleInput)
    (options : DecryptOptions) :
    decryptBatch env inst (h :: rest) options
      = match decryptValue env inst h options with
        | (Except.error e, fx) => (Except.error e, fx)
        | (Except.ok r, fx) =>
            match decryptBatch env inst rest options with
            | (Except.error e, fx2) => (Except.error e, fx ++ fx2)
            | (Except.ok rs, fx2) => (Except.ok (r :: rs), fx ++ fx2) := rfl

/-- C4: `decryptBatch` is the sequential, order-preserving, fail-fast
composition of `decryptValue` over the input list: its result equals the
monadic `mapM` of the per-element results (so all results appear in input
order); if every element before position `k` succeeds and element `k`
fails, the whole batch fails with exactly element `k`'s failure (no
partial list is returned); and a successful element's effects precede all
effects of the remaining elements (each element fully completes before
the next starts). -/
theorem decryptBatch_sequential_failfast (env : Env)
    (inst : FhevmInstance) (options : DecryptOptions) :
    (∀ handles, (decryptBatch env inst handles options).1
      = handles.mapM (fun h => (decryptValue env inst h options).1)) ∧
    (∀ pre h rest e,
      (∀ x ∈ pre, ((decryptValue env inst x options).1).isOk = true) →
      (decryptValue env inst h options).1 = Except.error e →
      (decryptBatch env inst (pre ++ h :: rest) options).1
        = Except.error e) ∧
    (∀ h rest r fx,
      decryptValue env inst h options = (Except.ok r, fx) →
      (decryptBatch env inst (h :: rest) options).2
        = fx ++ (decryptBatch env inst rest options).2) := by
  refine ⟨?_, ?_, ?_⟩
  · intro handles
    induction handles with
    | nil => rfl
    | cons h t ih =>
      rw [List.mapM_cons, ← ih, decryptBatch_cons]
      cases hd : decryptValue env inst h options with
      | mk v fx =>
        cases v with
        | error e => rfl
        | ok r =>
          cases bd : decryptBatch env inst t options with
          | mk bv bfx =>
            cases bv with
            | error e => rfl
            | ok rs => rfl
  · intro pre h rest e
    induction pre with
    | nil =>
      intro _ hfail
      simp only [List.nil_append]
      rw [decryptBatch_cons]
      cases hd : decryptValue env inst h options with
      | mk v fx =>
        rw [hd] at hfail
        have hv : v = Except.error e := hfail
        subst hv
        rfl
    | cons x pre ih =>
      intro hpre hfail
      simp only [List.cons_append]
      rw [decryptBatch_cons]
      cases hd : decryptValue env inst x options with
      | mk v fx =>
        have hx : v.isOk = true := by
          have hm := hpre x (by simp)
          rw [hd] at hm
          exact hm
        cases v with
        | error e2 => exact Bool.noConfusion hx
        | ok r =>
          cases bd : decryptBatch env inst (pre ++ h :: rest) options with
          | mk bv bfx =>
            have hbv : bv = Except.error e := by
              have hrec := ih
                (fun y hy => hpre y (List.mem_cons_of_mem _ hy)) hfail
              rw [bd] at hrec
              exact hrec
            subst hbv
            rfl
  · intro h rest r fx hd
    rw [decryptBatch_cons, hd]
    cases bd : decryptBatch env inst rest options with
    | mk bv bfx =>
      cases bv with
      | error e => rfl
      | ok rs => rfl

/-- Witness for C4: in a batch whose second element is an unparseable
handle string, the whole batch fails with exactly that element's
conversion failure, although the first element succeeds. -/
theorem decryptBatch_sequential_failfast_witness :
    (decryptBatch okEnv readyInst
        [HandleInput.big 1, HandleInput.str "xyz", HandleInput.big 2]
        sampleOptions).1
      = Except.error "Decryption failed: Cannot convert xyz to a BigInt" :=
  (decryptBatch_sequential_failfast okEnv readyInst sampleOptions).2.1
    [HandleInput.big 1] (HandleInput.str "xyz") [HandleInput.big 2]
    "Decryption failed: Cannot convert xyz to a BigInt"
    (by decide) (by decide)

/-- Counterexample for C6: the claim says every explicitly set field
overrides the network default.  A configuration whose gateway URL is
explicitly set to the empty string resolves to the sepolia default
instead of the set value, because the merge uses JavaScript `||`. -/
theorem resolveConfig_empty_override_cex :
    emptyGatewayConfig.gatewayUrl = some "" ∧
    (resolveConfig emptyGatewayConfig).gatewayUrl
      = "https://gateway.sepolia.zama.ai" ∧
    "https://gateway.sepolia.zama.ai" ≠ "" :=
  ⟨rfl, by decide, by decide⟩

/-- C6 (amended): each of `gatewayUrl`, `kmsContractAddress`,
`aclContractAddress` set to a non-empty string overrides the network
default (a field set to the empty string is treated as unset, as is an
absent field, and falls back to the named network's default row); the
`localhost` network resolves to gateway `http://localhost:8545` with zero
addresses for the KMS and ACL contracts; and every unrecognized network
name silently resolves to the sepolia defaults rather than failing. -/
theorem resolveConfig_spec (config : FhevmConfig) :
    (∀ s, config.gatewayUrl = some s → s ≠ "" →
      (resolveConfig config).gatewayUrl = s) ∧
    (∀ s, config.kmsContractAddress = some s → s ≠ "" →
      (resolveConfig config).kmsContractAddress = s) ∧
    (∀ s, config.aclContractAddress = some s → s ≠ "" →
      (resolveConfig config).aclContractAddress = s) ∧
    (config.gatewayUrl = none → (resolveConfig config).gatewayUrl
      = (getNetworkDefaults (orDefault config.network "sepolia")).gatewayUrl) ∧
    (config.kmsContractAddress = none →
      (resolveConfig config).kmsContractAddress
        = (getNetworkDefaults
            (orDefault config.network "sepolia")).kmsContractAddress) ∧
    (config.aclContractAddress = none →
      (resolveConfig config).aclContractAddress
        = (getNetworkDefaults
            (orDefault config.network "sepolia")).aclContractAddress) ∧
    resolveConfig localhostConfig
      = { kmsContractAddress := zeroAddress
          aclContractAddress := zeroAddress
          gatewayUrl := "http://localhost:8545"
          publicKey := none } ∧
    (∀ n, n ≠ "sepolia" → n ≠ "localhost" →
      getNetworkDefaults n = sepoliaDefaults) := by
  refine ⟨?_, ?_, ?_, ?_, ?_, ?_, by decide, ?_⟩
  · intro t hset hne
    simp [resolveConfig, orDefault, hset, hne]
  · intro t hset hne
    simp [resolveConfig, orDefault, hset, hne]
  · intro t hset hne
    simp [resolveConfig, orDefault, hset, hne]
  · intro hnone
    simp [resolveConfig, orDefault, hnone]
  · intro hnone
    simp [resolveConfig, orDefault, hnone]
  · intro hnone
    simp [resolveConfig, orDefault, hnone]
  · intro n h1 h2
    simp [getNetworkDefaults, h1, h2]

/-- Witness for C6 (amended): an unrecognized network name with an
explicit non-empty gateway override keeps the override and falls back to
the sepolia row for everything else. -/
theorem resolveConfig_spec_witness :
    (resolveConfig unknownNetConfig).gatewayUrl = "https://gw.example" ∧
    getNetworkDefaults "mainnet" = sepoliaDefaults :=
  ⟨(resolveConfig_spec unknownNetConfig).1 "https://gw.example" rfl
      (by decide),
   (resolveConfig_spec unknownNetConfig).2.2.2.2.2.2.2 "mainnet"
      (by decide) (by decide)⟩

end Fhevm
